import Mathlib

/-!
# Verification of the music-generation API facade

Shallow embedding of the request/response facade of the repository:
the status translator (`get_status` in `api/main.py`), the file resolver
(`get_file`), the training-archive validator (`_extract_audio_from_zip`
and `train_lora`), the generation-request parameter model
(`GenerationRequest` plus the `generate` endpoint), and the worker-side
output naming (`_save_result_audio` in `core/models.py`).

Filesystem-dependent primitives (`os.path.realpath`, `os.path.isfile`,
`mimetypes.guess_type`) are abstracted as explicit function parameters;
every pure string computation (`os.path.basename`, `os.path.join`,
`os.path.splitext`, `str.lower`, `str.startswith`, `str.endswith`,
substring tests) is embedded faithfully from the Python semantics.
-/

namespace AceStepApi

/-! ## Python string primitives -/

/-- `str.lower()` (ASCII case folding, enough for the extensions checked here). -/
def pyLower (s : String) : String := ⟨s.toList.map Char.toLower⟩

/-- `str.startswith(p)`. -/
def pyStartsWith (s p : String) : Bool := List.isPrefixOf p.toList s.toList

/-- `str.endswith(p)`. -/
def pyEndsWith (s p : String) : Bool := List.isSuffixOf p.toList s.toList

/-- Auxiliary: does `needle` occur as a contiguous run inside `hay`? -/
def listContainsSeq (needle : List Char) : List Char → Bool
  | [] => needle.isEmpty
  | c :: cs => List.isPrefixOf needle (c :: cs) || listContainsSeq needle cs

/-- Python `sub in s` substring test. -/
def pyContains (s sub : String) : Bool := listContainsSeq sub.toList s.toList

/-- Auxiliary for `os.path.basename`: characters of the last `/`-separated
component, accumulator-style. -/
def basenameAux : List Char → List Char → List Char
  | [], acc => acc.reverse
  | c :: cs, acc => if c = '/' then basenameAux cs [] else basenameAux cs (c :: acc)

/-- `os.path.basename(p)` (POSIX): the part after the last `/`. -/
def pyBasename (p : String) : String := ⟨basenameAux p.toList []⟩

/-- `os.path.join(a, b)` (POSIX, two arguments). -/
def joinPath (a b : String) : String :=
  if pyStartsWith b "/" then b
  else if a = "" || pyEndsWith a "/" then a ++ b
  else a ++ "/" ++ b

/-- Index of the last occurrence of `c`, if any. -/
def lastIdxOf (c : Char) : List Char → Option Nat
  | [] => none
  | x :: xs =>
    match lastIdxOf c xs with
    | some i => some (i + 1)
    | none => if x = c then some 0 else none

/-- `os.path.splitext(name)[1]` for a bare file name (no path separator):
the extension starting at the last dot, unless every character before that
dot is itself a dot (Python treats leading dots as part of the root). -/
def pySplitextExt (name : String) : String :=
  let cs := name.toList
  match lastIdxOf '.' cs with
  | none => ""
  | some i => if (cs.take i).any (fun ch => ch ≠ '.') then ⟨cs.drop i⟩ else ""

/-- `dict.get(k)` over an association list (insertion order preserved). -/
def dget (d : List (String × String)) (k : String) : Option String :=
  (d.find? (fun kv => kv.1 = k)).map (fun kv => kv.2)

/-! ## Status translator (`get_status` in `api/main.py`) -/

/-- The celery `AsyncResult.result` payload as seen by `get_status`:
a JSON-decoded dict (the worker returns string-keyed, string-valued
fields in all cases exercised by the API), an exception instance
(in `FAILURE` state `str(result)` is its message), or any other value. -/
inductive TaskResult
  | pydict (entries : List (String × String))
  | exc (message : String)
  | nonDict
deriving DecidableEq

/-- Python `repr`/`str` of a string-valued dict, used only if a `FAILURE`
payload happens to be a dict. -/
def pyReprDict (d : List (String × String)) : String :=
  "\x7b" ++ String.intercalate ", "
    (d.map (fun kv => "\x27" ++ kv.1 ++ "\x27: \x27" ++ kv.2 ++ "\x27")) ++ "\x7d"

/-- `str(result)` as called in the `FAILURE` branch of `get_status`.
For an exception this is its message; a non-dict, non-exception payload is
never inspected by any property below (the `SUCCESS` branch does not call
`str`), so its rendering is a fixed placeholder. -/
def pyStrOfResult : TaskResult → String
  | .pydict d => pyReprDict d
  | .exc m => m
  | .nonDict => "<object>"

/-- The slice of `celery.result.AsyncResult` read by `get_status`. -/
structure AsyncResultModel where
  state : String
  result : TaskResult
deriving DecidableEq

/-- `StatusResponse` (`api/main.py`). -/
structure StatusResponse where
  task_id : String
  status : String
  file_url : Option String
  error : Option String
deriving DecidableEq

/-- `get_status` (`api/main.py`, lines 778-812): translate the queue-native
state of a task into the user-facing status response. -/
def get_status (task_id : String) (r : AsyncResultModel) : StatusResponse :=
  if r.state = "PENDING" then
    ⟨task_id, "pending", none, none⟩
  else if r.state = "PROGRESS" then
    ⟨task_id, "processing", none, none⟩
  else if r.state = "SUCCESS" then
    match r.result with
    | .pydict d =>
      if dget d "status" = some "success" then
        let file_path := (dget d "file_path").getD ""
        ⟨task_id, "success", some ("/files/" ++ pyBasename file_path), none⟩
      else
        ⟨task_id, "failed", none, some ((dget d "error").getD "Unknown error")⟩
    | _ => ⟨task_id, "success", none, none⟩
  else if r.state = "FAILURE" then
    ⟨task_id, "failed", none, some (pyStrOfResult r.result)⟩
  else
    ⟨task_id, pyLower r.state, none, none⟩

/-! ## File resolver (`get_file` in `api/main.py`) -/

/-- Result of `GET /files/{filename}`. -/
inductive FileResult
  /-- HTTP 403 "Access denied". -/
  | forbidden
  /-- HTTP 404 "File not found". -/
  | notFound
  /-- HTTP 200: `FileResponse(path, media_type, filename)`. -/
  | ok (path : String) (media_type : String) (filename : String)
deriving DecidableEq

/-- `get_file` (`api/main.py`, lines 827-850). `realpath` abstracts
`os.path.realpath` (symlink-aware canonicalization), `isfile` abstracts
`os.path.isfile`, `guessType` abstracts `mimetypes.guess_type` restricted
to its first component. `outputDir` is `settings.OUTPUT_DIR`. -/
def get_file (realpath : String → String) (isfile : String → Bool)
    (guessType : String → Option String) (outputDir : String)
    (filename : String) : FileResult :=
  let safe_filename := pyBasename filename
  if safe_filename ≠ filename || pyContains filename ".." then
    .forbidden
  else
    let output_real := realpath outputDir
    let file_path := realpath (joinPath output_real safe_filename)
    if ¬ pyStartsWith file_path (output_real ++ "/") then
      .forbidden
    else if ¬ isfile file_path then
      .notFound
    else
      let content_type := (guessType safe_filename).getD "audio/wav"
      .ok file_path content_type safe_filename

/-! ## Archive validator (`_extract_audio_from_zip` and `train_lora`) -/

/-- `AUDIO_EXTENSIONS` (`api/main.py`, line 23). -/
def AUDIO_EXTENSIONS : List String := [".mp3", ".wav", ".flac", ".ogg", ".opus"]

/-- `MIN_LORA_FILES` (`api/main.py`, line 24). -/
def MIN_LORA_FILES : Nat := 5

/-- `MAX_LORA_FILES` (`api/main.py`, line 25). -/
def MAX_LORA_FILES : Nat := 10

/-- The per-file test of the collection walk in `_extract_audio_from_zip`:
`os.path.splitext(file)[1].lower() in AUDIO_EXTENSIONS`, where `file` is the
bare file name yielded by `os.walk`. -/
def hasAudioExt (file : String) : Bool :=
  AUDIO_EXTENSIONS.contains (pyLower (pySplitextExt file))

/-- The zip-slip test applied to one archive member (`api/main.py`,
lines 638-641): `member_path = os.path.realpath(os.path.join(tmp_dir, member))`
escapes when it does not start with `os.path.realpath(tmp_dir) + os.sep`. -/
def memberEscapes (realpath : String → String) (tmpDir : String)
    (member : String) : Bool :=
  ¬ pyStartsWith (realpath (joinPath tmpDir member)) (realpath tmpDir ++ "/")

/-- The files present in the scratch directory after `extractall` into a
fresh temporary directory: the non-directory members (directory members end
in `/` in a zip name list), each at most once. -/
def extractedFileList (members : List String) : List String :=
  (members.filter (fun m => ¬ pyEndsWith m "/")).dedup

deriving instance DecidableEq for Except

/-- Observable outcome of `_extract_audio_from_zip`: which member files got
written into the scratch directory, and either the collected audio-file list
or the HTTP 400 detail raised. -/
structure ExtractOutcome where
  written : List String
  result : Except String (List String)
deriving DecidableEq

/-- `_extract_audio_from_zip` (`api/main.py`, lines 632-652) on an archive
that opened successfully: first every member name is checked for escape
(raising HTTP 400 before `extractall` runs, so nothing is written), then the
archive is extracted and the tree walked for audio files by extension. -/
def _extract_audio_from_zip (realpath : String → String) (tmpDir : String)
    (members : List String) : ExtractOutcome :=
  if members.any (memberEscapes realpath tmpDir) then
    { written := [], result := .error "Invalid archive: path traversal detected" }
  else
    let files := extractedFileList members
    { written := files
      result := .ok (files.filter (fun m => hasAudioExt (pyBasename m))) }

/-- The uploaded `audio_archive` as seen by `zipfile`: either a corrupt
archive (opening raises `BadZipFile`) or a valid one with a member list. -/
inductive Upload
  | corruptZip
  | zipWith (members : List String)
deriving DecidableEq

/-- Outcome of `POST /train/lora`. -/
inductive TrainOutcome
  /-- HTTP 400 with the given detail string; no job enqueued. -/
  | badRequest (detail : String)
  /-- HTTP 200 `LoraTrainResponse(task_id, "pending", style_name)`:
  a `train_lora_task` job was enqueued. -/
  | accepted (style_name : String)
deriving DecidableEq

/-- `train_lora` (`api/main.py`, lines 878-923): extension check on the
uploaded file name, extraction with zip-slip rejection, cardinality window
on the collected audio files, then enqueue. -/
def train_lora (realpath : String → String) (tmpDir : String)
    (style_name : String) (upload_filename : String)
    (upload : Upload) : TrainOutcome :=
  if ¬ pyEndsWith (pyLower upload_filename) ".zip" then
    .badRequest "Please upload a ZIP archive"
  else
    match upload with
    | .corruptZip => .badRequest "Invalid ZIP archive"
    | .zipWith members =>
      match (_extract_audio_from_zip realpath tmpDir members).result with
      | .error detail => .badRequest detail
      | .ok audio_files =>
        if audio_files.length < MIN_LORA_FILES then
          .badRequest ("Need at least " ++ toString MIN_LORA_FILES ++
            " audio files for LoRA training, got " ++ toString audio_files.length)
        else if audio_files.length > MAX_LORA_FILES then
          .badRequest ("Maximum " ++ toString MAX_LORA_FILES ++
            " audio files for LoRA training, got " ++ toString audio_files.length)
        else
          .accepted style_name

/-! ## Parameter model (`GenerationRequest` and the `generate` endpoint)

JSON numbers are modelled as exact rationals (`ℚ`) for float-typed fields
and as `Int` for int-typed fields; a field of the request body is either
missing, explicitly `null`, or carries a value.  Pydantic validates every
field (missing falls back to the declared default, `null` is legal for
`Optional` fields, a value must satisfy the declared `ge`/`le` bounds and,
for enum fields, belong to the enum) and rejects the whole request with
HTTP 422 if any field fails. -/

/-- One field of the JSON request body. -/
inductive JField (α : Type)
  | missing
  | null
  | val (a : α)
deriving DecidableEq

/-- A required, unconstrained string field (`prompt`): present and non-null. -/
def jReqStrOk : JField String → Prop
  | .val _ => True
  | _ => False

instance (f : JField String) : Decidable (jReqStrOk f) :=
  match f with
  | .missing => isFalse (fun h => h)
  | .null => isFalse (fun h => h)
  | .val _ => isTrue trivial

/-- An `Optional` enum-valued field: missing and `null` pass, a value must
be one of the enum literals. -/
def jEnumOk : JField String → List String → Prop
  | .missing, _ => True
  | .null, _ => True
  | .val s, xs => s ∈ xs

instance (f : JField String) (xs : List String) : Decidable (jEnumOk f xs) :=
  match f with
  | .missing => isTrue trivial
  | .null => isTrue trivial
  | .val s => inferInstanceAs (Decidable (s ∈ xs))

/-- A non-`Optional` int field with a default and `ge`/`le` bounds
(`duration`): `null` is rejected, a value must lie in the range. -/
def jReqIntOk : JField Int → Int → Int → Prop
  | .missing, _, _ => True
  | .null, _, _ => False
  | .val v, lo, hi => lo ≤ v ∧ v ≤ hi

instance (f : JField Int) (lo hi : Int) : Decidable (jReqIntOk f lo hi) :=
  match f with
  | .missing => isTrue trivial
  | .null => isFalse (fun h => h)
  | .val v => inferInstanceAs (Decidable (lo ≤ v ∧ v ≤ hi))

/-- An `Optional` int field with `ge`/`le` bounds. -/
def jOptIntOk : JField Int → Int → Int → Prop
  | .missing, _, _ => True
  | .null, _, _ => True
  | .val v, lo, hi => lo ≤ v ∧ v ≤ hi

instance (f : JField Int) (lo hi : Int) : Decidable (jOptIntOk f lo hi) :=
  match f with
  | .missing => isTrue trivial
  | .null => isTrue trivial
  | .val v => inferInstanceAs (Decidable (lo ≤ v ∧ v ≤ hi))

/-- An `Optional` float field with `ge`/`le` bounds. -/
def jOptQOk : JField ℚ → ℚ → ℚ → Prop
  | .missing, _, _ => True
  | .null, _, _ => True
  | .val v, lo, hi => lo ≤ v ∧ v ≤ hi

instance (f : JField ℚ) (lo hi : ℚ) : Decidable (jOptQOk f lo hi) :=
  match f with
  | .missing => isTrue trivial
  | .null => isTrue trivial
  | .val v => inferInstanceAs (Decidable (lo ≤ v ∧ v ≤ hi))

/-- The `TaskType` enum literals. -/
def taskTypeValues : List String :=
  ["text2music", "cover", "repaint", "lego", "vocal2bgm", "retake"]

/-- The `AudioFormat` enum literals. -/
def audioFormatValues : List String := ["wav", "mp3", "flac"]

/-- The `InferMethod` enum literals. -/
def inferMethodValues : List String := ["ode", "sde"]

/-- The JSON body of `POST /generate`, field by field in declaration order
of `GenerationRequest` (`api/main.py`, lines 321-563). -/
structure GenInput where
  prompt : JField String
  task_type : JField String
  duration : JField Int
  lyrics : JField String
  instrumental : JField Bool
  style : JField String
  reference_audio : JField String
  src_audio : JField String
  lora_id : JField String
  vocal_language : JField String
  bpm : JField Int
  keyscale : JField String
  timesignature : JField String
  seed : JField Int
  num_steps : JField Int
  cfg_scale : JField ℚ
  use_adg : JField Bool
  cfg_interval_start : JField ℚ
  cfg_interval_end : JField ℚ
  shift : JField ℚ
  infer_method : JField String
  batch_size : JField Int
  audio_format : JField String
  repainting_start : JField ℚ
  repainting_end : JField ℚ
  audio_cover_strength : JField ℚ
  thinking : JField Bool
  lm_temperature : JField ℚ
  lm_top_p : JField ℚ
  lm_top_k : JField Int
  lm_max_tokens : JField Int
deriving DecidableEq

/-- The validated `GenerationRequest` instance: every `Optional` field is an
`Option`, the required `prompt` and the non-`Optional` `duration` are bare. -/
structure GenerationRequestModel where
  prompt : String
  task_type : Option String
  duration : Int
  lyrics : Option String
  instrumental : Option Bool
  style : Option String
  reference_audio : Option String
  src_audio : Option String
  lora_id : Option String
  vocal_language : Option String
  bpm : Option Int
  keyscale : Option String
  timesignature : Option String
  seed : Option Int
  num_steps : Option Int
  cfg_scale : Option ℚ
  use_adg : Option Bool
  cfg_interval_start : Option ℚ
  cfg_interval_end : Option ℚ
  shift : Option ℚ
  infer_method : Option String
  batch_size : Option Int
  audio_format : Option String
  repainting_start : Option ℚ
  repainting_end : Option ℚ
  audio_cover_strength : Option ℚ
  thinking : Option Bool
  lm_temperature : Option ℚ
  lm_top_p : Option ℚ
  lm_top_k : Option Int
  lm_max_tokens : Option Int
deriving DecidableEq

/-- Resolve an `Optional` field: missing falls back to the declared default,
explicit `null` stays `None`, a value is kept. -/
def jResolve {α : Type} (f : JField α) (default : Option α) : Option α :=
  match f with
  | .missing => default
  | .null => none
  | .val v => some v

/-- The conjunction of all per-field pydantic checks of `GenerationRequest`:
`prompt` required; `task_type`, `audio_format`, `infer_method` enum-valued;
`duration` in 10..600 (not nullable); `bpm` 40..300; `seed` -1..2147483647;
`num_steps` 1..100; `cfg_scale` 0..15; `cfg_interval_start`/`_end` 0..1;
`shift` 0.1..10; `batch_size` 1..8; `repainting_start` 0..600;
`repainting_end` -1..600; `audio_cover_strength` 0..1; `lm_temperature` 0..2;
`lm_top_p` 0..1; `lm_top_k` 1..500; `lm_max_tokens` 64..4096.  Unconstrained
string and bool fields carry no check. -/
def requestValid (inp : GenInput) : Prop :=
  jReqStrOk inp.prompt ∧
  jEnumOk inp.task_type taskTypeValues ∧
  jReqIntOk inp.duration 10 600 ∧
  jOptIntOk inp.bpm 40 300 ∧
  jOptIntOk inp.seed (-1) 2147483647 ∧
  jOptIntOk inp.num_steps 1 100 ∧
  jOptQOk inp.cfg_scale 0 15 ∧
  jOptQOk inp.cfg_interval_start 0 1 ∧
  jOptQOk inp.cfg_interval_end 0 1 ∧
  jOptQOk inp.shift (1/10) 10 ∧
  jEnumOk inp.infer_method inferMethodValues ∧
  jOptIntOk inp.batch_size 1 8 ∧
  jEnumOk inp.audio_format audioFormatValues ∧
  jOptQOk inp.repainting_start 0 600 ∧
  jOptQOk inp.repainting_end (-1) 600 ∧
  jOptQOk inp.audio_cover_strength 0 1 ∧
  jOptQOk inp.lm_temperature 0 2 ∧
  jOptQOk inp.lm_top_p 0 1 ∧
  jOptIntOk inp.lm_top_k 1 500 ∧
  jOptIntOk inp.lm_max_tokens 64 4096

instance (inp : GenInput) : Decidable (requestValid inp) := by
  unfold requestValid
  infer_instance

/-- Construct the validated model from a request body that passed
validation (defaults as declared in `GenerationRequest`). -/
def buildModel (inp : GenInput) : GenerationRequestModel where
  prompt := match inp.prompt with | .val s => s | _ => ""
  task_type := jResolve inp.task_type (some "text2music")
  duration := match inp.duration with | .val v => v | _ => 120
  lyrics := jResolve inp.lyrics none
  instrumental := jResolve inp.instrumental (some false)
  style := jResolve inp.style none
  reference_audio := jResolve inp.reference_audio none
  src_audio := jResolve inp.src_audio none
  lora_id := jResolve inp.lora_id none
  vocal_language := jResolve inp.vocal_language none
  bpm := jResolve inp.bpm none
  keyscale := jResolve inp.keyscale none
  timesignature := jResolve inp.timesignature none
  seed := jResolve inp.seed (some (-1))
  num_steps := jResolve inp.num_steps (some 8)
  cfg_scale := jResolve inp.cfg_scale (some (7/2))
  use_adg := jResolve inp.use_adg (some false)
  cfg_interval_start := jResolve inp.cfg_interval_start (some 0)
  cfg_interval_end := jResolve inp.cfg_interval_end (some 1)
  shift := jResolve inp.shift (some 1)
  infer_method := jResolve inp.infer_method (some "ode")
  batch_size := jResolve inp.batch_size (some 1)
  audio_format := jResolve inp.audio_format (some "wav")
  repainting_start := jResolve inp.repainting_start none
  repainting_end := jResolve inp.repainting_end none
  audio_cover_strength := jResolve inp.audio_cover_strength none
  thinking := jResolve inp.thinking (some false)
  lm_temperature := jResolve inp.lm_temperature none
  lm_top_p := jResolve inp.lm_top_p none
  lm_top_k := jResolve inp.lm_top_k none
  lm_max_tokens := jResolve inp.lm_max_tokens none

/-- Pydantic parsing of the request body: `some` model on success,
`none` for the HTTP 422 rejection (raised before the endpoint body runs,
hence before any task id is created). -/
def validateGenerationRequest (inp : GenInput) : Option GenerationRequestModel :=
  if requestValid inp then some (buildModel inp) else none

/-- A value of the dict produced by `model_dump` (never `None` under
`exclude_none=True`). -/
inductive DumpValue
  | int (i : Int)
  | rat (q : ℚ)
  | str (s : String)
  | bool (b : Bool)
deriving DecidableEq

/-- One optional entry of the dump: present iff the field value is not
`None`. -/
def optEntry (k : String) (v : Option DumpValue) : List (String × DumpValue) :=
  match v with
  | none => []
  | some x => [(k, x)]

/-- Fields 1-8 of the dump (declaration order). -/
def modelDumpA (m : GenerationRequestModel) : List (String × DumpValue) :=
  List.flatten
    [[("prompt", DumpValue.str m.prompt)],
     optEntry "task_type" (m.task_type.map DumpValue.str),
     [("duration", DumpValue.int m.duration)],
     optEntry "lyrics" (m.lyrics.map DumpValue.str),
     optEntry "instrumental" (m.instrumental.map DumpValue.bool),
     optEntry "style" (m.style.map DumpValue.str),
     optEntry "reference_audio" (m.reference_audio.map DumpValue.str),
     optEntry "src_audio" (m.src_audio.map DumpValue.str)]

/-- Fields 9-16 of the dump. -/
def modelDumpB (m : GenerationRequestModel) : List (String × DumpValue) :=
  List.flatten
    [optEntry "lora_id" (m.lora_id.map DumpValue.str),
     optEntry "vocal_language" (m.vocal_language.map DumpValue.str),
     optEntry "bpm" (m.bpm.map DumpValue.int),
     optEntry "keyscale" (m.keyscale.map DumpValue.str),
     optEntry "timesignature" (m.timesignature.map DumpValue.str),
     optEntry "seed" (m.seed.map DumpValue.int),
     optEntry "num_steps" (m.num_steps.map DumpValue.int),
     optEntry "cfg_scale" (m.cfg_scale.map DumpValue.rat)]

/-- Fields 17-24 of the dump. -/
def modelDumpC (m : GenerationRequestModel) : List (String × DumpValue) :=
  List.flatten
    [optEntry "use_adg" (m.use_adg.map DumpValue.bool),
     optEntry "cfg_interval_start" (m.cfg_interval_start.map DumpValue.rat),
     optEntry "cfg_interval_end" (m.cfg_interval_end.map DumpValue.rat),
     optEntry "shift" (m.shift.map DumpValue.rat),
     optEntry "infer_method" (m.infer_method.map DumpValue.str),
     optEntry "batch_size" (m.batch_size.map DumpValue.int),
     optEntry "audio_format" (m.audio_format.map DumpValue.str),
     optEntry "repainting_start" (m.repainting_start.map DumpValue.rat)]

/-- Fields 25-31 of the dump. -/
def modelDumpD (m : GenerationRequestModel) : List (String × DumpValue) :=
  List.flatten
    [optEntry "repainting_end" (m.repainting_end.map DumpValue.rat),
     optEntry "audio_cover_strength" (m.audio_cover_strength.map DumpValue.rat),
     optEntry "thinking" (m.thinking.map DumpValue.bool),
     optEntry "lm_temperature" (m.lm_temperature.map DumpValue.rat),
     optEntry "lm_top_p" (m.lm_top_p.map DumpValue.rat),
     optEntry "lm_top_k" (m.lm_top_k.map DumpValue.int),
     optEntry "lm_max_tokens" (m.lm_max_tokens.map DumpValue.int)]

/-- `request.model_dump(exclude_none=True)` (`api/main.py`, line 761):
the fields in declaration order, each `None`-valued field omitted. -/
def modelDump (m : GenerationRequestModel) : List (String × DumpValue) :=
  modelDumpA m ++ modelDumpB m ++ modelDumpC m ++ modelDumpD m

/-- The `generate` endpoint (`api/main.py`, lines 756-764): on a valid body
it enqueues `generate_track` with `request.model_dump(exclude_none=True)` as
the parameter mapping and answers `pending`; `none` models the HTTP 422
rejection with no job enqueued. -/
def generate (inp : GenInput) : Option (List (String × DumpValue)) :=
  (validateGenerationRequest inp).map modelDump

/-! ## Worker output naming (`core/models.py`) -/

/-- One element of `result.audios` as read by `_save_result_audio`:
its `path` entry (empty string when absent) and whether a `tensor`
entry is present. -/
structure AudioItem where
  path : String
  hasTensor : Bool
deriving DecidableEq

/-- `_save_result_audio` (`core/models.py`, lines 225-248), observed through
the name of the produced output file. `fexists` abstracts `os.path.exists`.
The returned file name is `f"{task_id}.wav"` on every success path,
independent of the generation parameters. -/
def _save_result_audio (fexists : String → Bool) (audios : List AudioItem)
    (task_id : String) : Except String String :=
  let output_filename := task_id ++ ".wav"
  match audios with
  | [] => .error "No audio was generated"
  | first_audio :: _ =>
    if first_audio.path ≠ "" && fexists first_audio.path then
      .ok output_filename
    else if first_audio.hasTensor then
      .ok output_filename
    else
      .error "No audio data in generation result"

/-- The negotiated audio format of `_build_generation_params`
(`core/models.py`, line 202): `params.get("audio_format", "wav")`,
handed to `GenerationConfig` but never consulted when the output file
is named. -/
def negotiatedAudioFormat (params : List (String × String)) : String :=
  (dget params "audio_format").getD "wav"

/-! ## Claims -/

/-- Claim C1: the status endpoint translates the queue-native state as
specified: `PENDING` yields `pending`; `PROGRESS` yields `processing`;
`SUCCESS` wrapping a result payload with `status = "success"` and
`file_path = p` yields `status = "success"` with
`file_url = "/files/" ++ basename p`; `SUCCESS` wrapping
`status = "failed"`, `error = e` yields `status = "failed"` with error `e`;
`FAILURE` with an exception payload yields `status = "failed"` with the
exception's string rendering as error. -/
theorem c1_status_translation (task_id p e : String)
    (d : List (String × String)) (r : TaskResult) :
    (get_status task_id ⟨"PENDING", r⟩ = ⟨task_id, "pending", none, none⟩) ∧
    (get_status task_id ⟨"PROGRESS", r⟩ = ⟨task_id, "processing", none, none⟩) ∧
    (dget d "status" = some "success" → dget d "file_path" = some p →
      get_status task_id ⟨"SUCCESS", .pydict d⟩ =
        ⟨task_id, "success", some ("/files/" ++ pyBasename p), none⟩) ∧
    (dget d "status" = some "failed" → dget d "error" = some e →
      get_status task_id ⟨"SUCCESS", .pydict d⟩ =
        ⟨task_id, "failed", none, some e⟩) ∧
    (get_status task_id ⟨"FAILURE", .exc e⟩ =
      ⟨task_id, "failed", none, some (pyStrOfResult (.exc e))⟩) := by
  refine ⟨by simp +decide [get_status], by simp +decide [get_status], ?_, ?_, ?_⟩
  · intro h1 h2
    simp +decide [get_status, h1, h2]
  · intro h1 h2
    simp +decide [get_status, h1, h2]
  · simp +decide [get_status]

/-- Claim C1, witness: concrete instances of the `SUCCESS` translations,
with the hypotheses about the payload dict discharged by evaluation. -/
theorem c1_status_translation_witness :
    get_status "t" ⟨"SUCCESS", .pydict [("status", "success"), ("file_path", "/x/abc.wav")]⟩ =
      ⟨"t", "success", some "/files/abc.wav", none⟩ ∧
    get_status "t" ⟨"SUCCESS", .pydict [("status", "failed"), ("error", "boom")]⟩ =
      ⟨"t", "failed", none, some "boom"⟩ := by
  constructor
  · exact ((c1_status_translation "t" "/x/abc.wav" "e"
      [("status", "success"), ("file_path", "/x/abc.wav")] .nonDict).2.2.1
      (by decide) (by decide)).trans (by decide)
  · exact (c1_status_translation "t" "p" "boom"
      [("status", "failed"), ("error", "boom")] .nonDict).2.2.2.1
      (by decide) (by decide)

/-- Claim C9 (code bug): the queue backend is configured with
`task_track_started=True` (`core/celery_app.py`), so the native state
`STARTED` is reachable between dequeue and the task's first
`update_state("PROGRESS")`; the fallback branch of `get_status` then
answers the lowercased native state `"started"`, which is outside the
documented four-string vocabulary. -/
theorem c9_status_vocabulary_violation :
    get_status "t1" ⟨"STARTED", .nonDict⟩ = ⟨"t1", "started", none, none⟩ ∧
    "started" ∉ ["pending", "processing", "success", "failed"] := by
  decide

/-- Claim C10: any filename containing the substring `".."` anywhere is
answered 403 by `GET /files/{filename}`, whatever the state of the
filesystem (`realpath`/`isfile` arbitrary), so such artifacts are
unreachable through the file endpoint even when the file exists. -/
theorem c10_dotdot_always_forbidden (realpath : String → String)
    (isfile : String → Bool) (guessType : String → Option String)
    (outputDir filename : String)
    (h : pyContains filename ".." = true) :
    get_file realpath isfile guessType outputDir filename = .forbidden := by
  unfold get_file
  simp [h]

/-- Claim C10, witness: `"track..wav"` equals its own basename and the
modelled filesystem says the file exists, yet the endpoint answers 403. -/
theorem c10_dotdot_always_forbidden_witness :
    pyBasename "track..wav" = "track..wav" ∧
    get_file (fun s => s) (fun _ => true) (fun _ => none) "/out" "track..wav" =
      .forbidden := by
  refine ⟨by decide, ?_⟩
  exact c10_dotdot_always_forbidden (fun s => s) (fun _ => true) (fun _ => none)
    "/out" "track..wav" (by decide)

/-- Claim C2: file resolution.  A filename that differs from its own
basename or contains a traversal sequence is rejected 403 for every
filesystem state; a well-formed filename whose canonicalized path is not a
strict descendant of the canonicalized output root is rejected 403
independently of the existence check; a well-formed filename resolving to a
strict descendant yields 404 when the file is absent and 200 with the
content type negotiated from the name (fallback `audio/wav`) when it is
present. -/
theorem c2_file_resolution (realpath : String → String)
    (guessType : String → Option String) (outputDir filename : String) :
    ((pyBasename filename ≠ filename ∨ pyContains filename ".." = true) →
      ∀ isfile : String → Bool,
        get_file realpath isfile guessType outputDir filename = .forbidden) ∧
    (pyBasename filename = filename → pyContains filename ".." = false →
      pyStartsWith (realpath (joinPath (realpath outputDir) (pyBasename filename)))
        (realpath outputDir ++ "/") = false →
      ∀ isfile : String → Bool,
        get_file realpath isfile guessType outputDir filename = .forbidden) ∧
    (pyBasename filename = filename → pyContains filename ".." = false →
      pyStartsWith (realpath (joinPath (realpath outputDir) (pyBasename filename)))
        (realpath outputDir ++ "/") = true →
      ∀ isfile : String → Bool,
        (isfile (realpath (joinPath (realpath outputDir) (pyBasename filename))) = false →
          get_file realpath isfile guessType outputDir filename = .notFound) ∧
        (isfile (realpath (joinPath (realpath outputDir) (pyBasename filename))) = true →
          get_file realpath isfile guessType outputDir filename =
            .ok (realpath (joinPath (realpath outputDir) (pyBasename filename)))
              ((guessType filename).getD "audio/wav") filename)) := by
  refine ⟨?_, ?_, ?_⟩
  · intro h isfile
    unfold get_file
    rcases h with h | h
    · simp [h]
    · simp [h]
  · intro h1 h2 h3 isfile
    rw [h1] at h3
    unfold get_file
    simp [h1, h2, h3]
  · intro h1 h2 h3 isfile
    rw [h1] at h3
    constructor
    · intro h4
      rw [h1] at h4
      unfold get_file
      simp [h1, h2, h3, h4]
    · intro h4
      rw [h1] at h4
      unfold get_file
      simp [h1, h2, h3, h4]

/-- Claim C2, witness: with an identity canonicalization and output root
`/out`, the filename `song.wav` is served from `/out/song.wav` with the
negotiated content type when present and answered 404 when absent. -/
theorem c2_file_resolution_witness :
    get_file (fun s => s) (fun _ => true) (fun _ => some "audio/x-wav")
      "/out" "song.wav" = .ok "/out/song.wav" "audio/x-wav" "song.wav" ∧
    get_file (fun s => s) (fun _ => false) (fun _ => some "audio/x-wav")
      "/out" "song.wav" = .notFound := by
  have h := (c2_file_resolution (fun s => s) (fun _ => some "audio/x-wav")
    "/out" "song.wav").2.2 (by decide) (by decide) (by decide)
  exact ⟨((h (fun _ => true)).2 rfl).trans (by decide),
    (h (fun _ => false)).1 rfl⟩

/-- Shared helper: when no member escapes the scratch root, extraction
succeeds and collects exactly the extracted files with an audio extension. -/
theorem extract_ok_of_safe (realpath : String → String) (tmpDir : String)
    (members : List String)
    (hsafe : members.any (memberEscapes realpath tmpDir) = false) :
    _extract_audio_from_zip realpath tmpDir members =
      { written := extractedFileList members
        result := .ok ((extractedFileList members).filter
          (fun m => hasAudioExt (pyBasename m))) } := by
  unfold _extract_audio_from_zip
  simp [hsafe]

/-- Claim C3: zip-slip protection.  If any member of the archive resolves
outside the scratch root, the bundle is rejected with the 400 detail
`"Invalid archive: path traversal detected"` and no member is written into
the scratch directory; through `POST /train/lora` this surfaces as the same
400 rejection. -/
theorem c3_zip_slip (realpath : String → String) (tmpDir : String)
    (members : List String) (m : String) (hm : m ∈ members)
    (hesc : memberEscapes realpath tmpDir m = true) :
    (_extract_audio_from_zip realpath tmpDir members).result =
      .error "Invalid archive: path traversal detected" ∧
    (_extract_audio_from_zip realpath tmpDir members).written = [] ∧
    (∀ style fname : String, pyEndsWith (pyLower fname) ".zip" = true →
      train_lora realpath tmpDir style fname (.zipWith members) =
        .badRequest "Invalid archive: path traversal detected") := by
  have hany : members.any (memberEscapes realpath tmpDir) = true :=
    List.any_eq_true.mpr ⟨m, hm, hesc⟩
  have hext : _extract_audio_from_zip realpath tmpDir members =
      { written := [], result := .error "Invalid archive: path traversal detected" } := by
    unfold _extract_audio_from_zip
    simp [hany]
  refine ⟨by rw [hext], by rw [hext], ?_⟩
  intro style fname hzip
  unfold train_lora
  simp [hzip, hext]

/-- Claim C3, witness: an archive with a parent-relative member whose
canonical path lands outside the scratch root is rejected before anything
is extracted, also through the training endpoint. -/
theorem c3_zip_slip_witness :
    (_extract_audio_from_zip
      (fun s => if s = "/tmp/lora_train_x/../evil.wav" then "/evil.wav" else s)
      "/tmp/lora_train_x" ["../evil.wav", "good.wav"]).result =
      .error "Invalid archive: path traversal detected" ∧
    (_extract_audio_from_zip
      (fun s => if s = "/tmp/lora_train_x/../evil.wav" then "/evil.wav" else s)
      "/tmp/lora_train_x" ["../evil.wav", "good.wav"]).written = [] ∧
    train_lora
      (fun s => if s = "/tmp/lora_train_x/../evil.wav" then "/evil.wav" else s)
      "/tmp/lora_train_x" "my_style" "bundle.zip" (.zipWith ["../evil.wav", "good.wav"]) =
      .badRequest "Invalid archive: path traversal detected" := by
  have h := c3_zip_slip
    (fun s => if s = "/tmp/lora_train_x/../evil.wav" then "/evil.wav" else s)
    "/tmp/lora_train_x" ["../evil.wav", "good.wav"] "../evil.wav"
    (by decide) (by decide)
  exact ⟨h.1, h.2.1, h.2.2 "my_style" "bundle.zip" (by decide)⟩

/-- The number of audio files the archive validator collects: extracted
member files (any nesting depth) whose extension is, case-insensitively,
one of the five audio extensions. -/
def audioCount (members : List String) : Nat :=
  ((extractedFileList members).filter (fun m => hasAudioExt (pyBasename m))).length

/-- Claim C4: cardinality window of `POST /train/lora`.  For a valid zip
whose members all stay under the scratch root, with `n` the number of
collected audio files: `5 ≤ n ≤ 10` is accepted and a job enqueued; `n < 5`
is rejected 400 with the "Need at least" message; `n > 10` is rejected 400
with the "Maximum" message; a corrupt archive is rejected 400 with
"Invalid ZIP archive". -/
theorem c4_cardinality_window (realpath : String → String)
    (tmpDir style fname : String) (members : List String)
    (hzip : pyEndsWith (pyLower fname) ".zip" = true)
    (hsafe : members.any (memberEscapes realpath tmpDir) = false) :
    (5 ≤ audioCount members → audioCount members ≤ 10 →
      train_lora realpath tmpDir style fname (.zipWith members) = .accepted style) ∧
    (audioCount members < 5 →
      train_lora realpath tmpDir style fname (.zipWith members) =
        .badRequest ("Need at least " ++ toString MIN_LORA_FILES ++
          " audio files for LoRA training, got " ++ toString (audioCount members))) ∧
    (10 < audioCount members →
      train_lora realpath tmpDir style fname (.zipWith members) =
        .badRequest ("Maximum " ++ toString MAX_LORA_FILES ++
          " audio files for LoRA training, got " ++ toString (audioCount members))) ∧
    (train_lora realpath tmpDir style fname .corruptZip =
      .badRequest "Invalid ZIP archive") := by
  have hext := extract_ok_of_safe realpath tmpDir members hsafe
  refine ⟨?_, ?_, ?_, by unfold train_lora; simp [hzip]⟩
  · intro hlo hhi
    unfold audioCount at hlo hhi
    unfold train_lora
    simp [hzip, hext, MIN_LORA_FILES, MAX_LORA_FILES]
    split
    · omega
    · split
      · omega
      · rfl
  · intro hlt
    unfold audioCount at hlt
    unfold train_lora
    simp [hzip, hext, MIN_LORA_FILES, MAX_LORA_FILES]
    rw [if_pos hlt]
    unfold audioCount
    rfl
  · intro hgt
    unfold audioCount at hgt
    unfold train_lora
    simp [hzip, hext, MIN_LORA_FILES, MAX_LORA_FILES]
    rw [if_neg (by omega), if_pos hgt]
    unfold audioCount
    rfl

/-- Claim C4, witness: concrete archives with 5 audio files (accepted),
3 (too few), 11 (too many, one member being a non-audio readme that is not
counted), and a corrupt upload, all under an identity canonicalization. -/
theorem c4_cardinality_window_witness :
    train_lora (fun s => s) "/tmp/l" "sty" "a.zip"
      (.zipWith ["a1.wav", "a2.mp3", "a3.flac", "a4.ogg", "a5.opus", "readme.txt"]) =
      .accepted "sty" ∧
    train_lora (fun s => s) "/tmp/l" "sty" "a.zip"
      (.zipWith ["a1.wav", "a2.wav", "a3.wav"]) =
      .badRequest "Need at least 5 audio files for LoRA training, got 3" ∧
    train_lora (fun s => s) "/tmp/l" "sty" "a.zip"
      (.zipWith ["b1.wav", "b2.wav", "b3.wav", "b4.wav", "b5.wav", "b6.wav",
        "b7.wav", "b8.wav", "b9.wav", "b10.wav", "b11.wav"]) =
      .badRequest "Maximum 10 audio files for LoRA training, got 11" ∧
    train_lora (fun s => s) "/tmp/l" "sty" "a.zip" .corruptZip =
      .badRequest "Invalid ZIP archive" := by
  refine ⟨?_, ?_, ?_, ?_⟩
  · exact (c4_cardinality_window (fun s => s) "/tmp/l" "sty" "a.zip"
      ["a1.wav", "a2.mp3", "a3.flac", "a4.ogg", "a5.opus", "readme.txt"]
      (by decide) (by decide)).1 (by decide) (by decide)
  · exact ((c4_cardinality_window (fun s => s) "/tmp/l" "sty" "a.zip"
      ["a1.wav", "a2.wav", "a3.wav"] (by decide) (by decide)).2.1
      (by decide)).trans (by decide)
  · exact ((c4_cardinality_window (fun s => s) "/tmp/l" "sty" "a.zip"
      ["b1.wav", "b2.wav", "b3.wav", "b4.wav", "b5.wav", "b6.wav",
        "b7.wav", "b8.wav", "b9.wav", "b10.wav", "b11.wav"]
      (by decide) (by decide)).2.2.1 (by decide)).trans (by decide)
  · exact (c4_cardinality_window (fun s => s) "/tmp/l" "sty" "a.zip" []
      (by decide) (by decide)).2.2.2

/-- A minimal valid request body: only the required `prompt` is supplied,
every other field is absent. -/
def promptOnlyInput : GenInput where
  prompt := .val "jazz piano solo"
  task_type := .missing
  duration := .missing
  lyrics := .missing
  instrumental := .missing
  style := .missing
  reference_audio := .missing
  src_audio := .missing
  lora_id := .missing
  vocal_language := .missing
  bpm := .missing
  keyscale := .missing
  timesignature := .missing
  seed := .missing
  num_steps := .missing
  cfg_scale := .missing
  use_adg := .missing
  cfg_interval_start := .missing
  cfg_interval_end := .missing
  shift := .missing
  infer_method := .missing
  batch_size := .missing
  audio_format := .missing
  repainting_start := .missing
  repainting_end := .missing
  audio_cover_strength := .missing
  thinking := .missing
  lm_temperature := .missing
  lm_top_k := .missing
  lm_top_p := .missing
  lm_max_tokens := .missing

/-- Shared helper: a request failing any single validation check is
rejected with no job enqueued. -/
theorem generate_eq_none_of_not_valid (inp : GenInput)
    (h : ¬ requestValid inp) : generate inp = none := by
  unfold generate validateGenerationRequest
  rw [if_neg h]
  rfl

/-- Claim C5: every range violation on `duration`, `batch_size`, `bpm`,
`cfg_scale`, `num_steps`, `shift`, `seed`, `lm_top_k` or `lm_max_tokens`
is rejected (422) with no job enqueued, and a request missing the required
`prompt` is rejected before any job id is created. -/
theorem c5_range_validation (inp : GenInput) :
    (inp.prompt = JField.missing → generate inp = none) ∧
    (∀ v : Int, inp.duration = .val v → (v < 10 ∨ 600 < v) → generate inp = none) ∧
    (∀ v : Int, inp.batch_size = .val v → (v < 1 ∨ 8 < v) → generate inp = none) ∧
    (∀ v : Int, inp.bpm = .val v → (v < 40 ∨ 300 < v) → generate inp = none) ∧
    (∀ v : ℚ, inp.cfg_scale = .val v → (v < 0 ∨ 15 < v) → generate inp = none) ∧
    (∀ v : Int, inp.num_steps = .val v → (v < 1 ∨ 100 < v) → generate inp = none) ∧
    (∀ v : ℚ, inp.shift = .val v → (v < 1/10 ∨ 10 < v) → generate inp = none) ∧
    (∀ v : Int, inp.seed = .val v → (v < -1 ∨ 2147483647 < v) → generate inp = none) ∧
    (∀ v : Int, inp.lm_top_k = .val v → (v < 1 ∨ 500 < v) → generate inp = none) ∧
    (∀ v : Int, inp.lm_max_tokens = .val v → (v < 64 ∨ 4096 < v) → generate inp = none) := by
  refine ⟨?_, ?_, ?_, ?_, ?_, ?_, ?_, ?_, ?_, ?_⟩
  · intro hv
    refine generate_eq_none_of_not_valid inp (fun hval => ?_)
    obtain ⟨h1, -⟩ := hval
    rw [hv] at h1
    exact h1
  · intro v hv hr
    refine generate_eq_none_of_not_valid inp (fun hval => ?_)
    obtain ⟨-, -, h3, -⟩ := hval
    rw [hv] at h3
    obtain ⟨hlo, hhi⟩ := h3
    rcases hr with h | h <;> omega
  · intro v hv hr
    refine generate_eq_none_of_not_valid inp (fun hval => ?_)
    obtain ⟨-, -, -, -, -, -, -, -, -, -, -, h12, -⟩ := hval
    rw [hv] at h12
    obtain ⟨hlo, hhi⟩ := h12
    rcases hr with h | h <;> omega
  · intro v hv hr
    refine generate_eq_none_of_not_valid inp (fun hval => ?_)
    obtain ⟨-, -, -, h4, -⟩ := hval
    rw [hv] at h4
    obtain ⟨hlo, hhi⟩ := h4
    rcases hr with h | h <;> omega
  · intro v hv hr
    refine generate_eq_none_of_not_valid inp (fun hval => ?_)
    obtain ⟨-, -, -, -, -, -, h7, -⟩ := hval
    rw [hv] at h7
    obtain ⟨hlo, hhi⟩ := h7
    rcases hr with h | h <;> linarith
  · intro v hv hr
    refine generate_eq_none_of_not_valid inp (fun hval => ?_)
    obtain ⟨-, -, -, -, -, h6, -⟩ := hval
    rw [hv] at h6
    obtain ⟨hlo, hhi⟩ := h6
    rcases hr with h | h <;> omega
  · intro v hv hr
    refine generate_eq_none_of_not_valid inp (fun hval => ?_)
    obtain ⟨-, -, -, -, -, -, -, -, -, h10, -⟩ := hval
    rw [hv] at h10
    obtain ⟨hlo, hhi⟩ := h10
    rcases hr with h | h <;> linarith
  · intro v hv hr
    refine generate_eq_none_of_not_valid inp (fun hval => ?_)
    obtain ⟨-, -, -, -, h5, -⟩ := hval
    rw [hv] at h5
    obtain ⟨hlo, hhi⟩ := h5
    rcases hr with h | h <;> omega
  · intro v hv hr
    refine generate_eq_none_of_not_valid inp (fun hval => ?_)
    obtain ⟨-, -, -, -, -, -, -, -, -, -, -, -, -, -, -, -, -, -, h19, -⟩ := hval
    rw [hv] at h19
    obtain ⟨hlo, hhi⟩ := h19
    rcases hr with h | h <;> omega
  · intro v hv hr
    refine generate_eq_none_of_not_valid inp (fun hval => ?_)
    obtain ⟨-, -, -, -, -, -, -, -, -, -, -, -, -, -, -, -, -, -, -, h20⟩ := hval
    rw [hv] at h20
    obtain ⟨hlo, hhi⟩ := h20
    rcases hr with h | h <;> omega

/-- Claim C5, witness: a request with `duration = 700` and one with a
missing `prompt` are both rejected with no job enqueued. -/
theorem c5_range_validation_witness :
    generate { promptOnlyInput with duration := JField.val 700 } = none ∧
    generate { promptOnlyInput with prompt := JField.missing } = none := by
  constructor
  · exact (c5_range_validation { promptOnlyInput with duration := JField.val 700 }).2.1
      700 rfl (Or.inr (by norm_num))
  · exact (c5_range_validation { promptOnlyInput with prompt := JField.missing }).1 rfl

/-- Claim C6, counterexample: the claim says every value strictly between
−1 and 0 is rejected for `repainting_end`, but the schema declares
`ge=-1.0, le=600.0`, so `repainting_end = -0.5` passes validation and a
job is enqueued. -/
theorem c6_counterexample :
    { promptOnlyInput with repainting_end := JField.val (-(1 : ℚ)/2) }.repainting_end =
      JField.val (-(1 : ℚ)/2) ∧
    (-1 : ℚ) < -(1 : ℚ)/2 ∧ -(1 : ℚ)/2 < 0 ∧
    generate { promptOnlyInput with repainting_end := JField.val (-(1 : ℚ)/2) } ≠ none := by
  refine ⟨rfl, by norm_num, by norm_num, ?_⟩
  have hvalid : requestValid
      { promptOnlyInput with repainting_end := JField.val (-(1 : ℚ)/2) } :=
    ⟨trivial, trivial, trivial, trivial, trivial, trivial, trivial,
      trivial, trivial, trivial, trivial, trivial, trivial, trivial,
      ⟨by norm_num, by norm_num⟩, trivial, trivial, trivial, trivial, trivial⟩
  unfold generate validateGenerationRequest
  rw [if_pos hvalid]
  simp

/-- Claim C6 as amended: `repainting_end` accepts exactly the closed
interval [−1, 600] — the sentinel −1, the values strictly between −1 and 0,
and the non-negative values up to 600 — and rejects values below −1 or
above 600; `repainting_start` rejects every negative value. -/
theorem c6_repainting_bounds (inp : GenInput) :
    (∀ v : ℚ, inp.repainting_end = .val v → (v < -1 ∨ 600 < v) →
      generate inp = none) ∧
    (∀ v : ℚ, -1 ≤ v → v ≤ 600 →
      generate { promptOnlyInput with repainting_end := JField.val v } ≠ none) ∧
    (∀ v : ℚ, inp.repainting_start = .val v → v < 0 → generate inp = none) := by
  refine ⟨?_, ?_, ?_⟩
  · intro v hv hr
    refine generate_eq_none_of_not_valid inp (fun hval => ?_)
    obtain ⟨-, -, -, -, -, -, -, -, -, -, -, -, -, -, h15, -⟩ := hval
    rw [hv] at h15
    obtain ⟨hlo, hhi⟩ := h15
    rcases hr with h | h <;> linarith
  · intro v hlo hhi
    have hvalid : requestValid { promptOnlyInput with repainting_end := JField.val v } := by
      refine ⟨trivial, trivial, trivial, trivial, trivial, trivial, trivial,
        trivial, trivial, trivial, trivial, trivial, trivial, trivial,
        ⟨hlo, hhi⟩, trivial, trivial, trivial, trivial, trivial⟩
    unfold generate validateGenerationRequest
    rw [if_pos hvalid]
    simp
  · intro v hv hr
    refine generate_eq_none_of_not_valid inp (fun hval => ?_)
    obtain ⟨-, -, -, -, -, -, -, -, -, -, -, -, -, h14, -⟩ := hval
    rw [hv] at h14
    obtain ⟨hlo, hhi⟩ := h14
    linarith

/-- Claim C6 as amended, witness: `repainting_end = -2` is rejected,
`repainting_end = -0.5` is accepted, `repainting_start = -1` is rejected. -/
theorem c6_repainting_bounds_witness :
    generate { promptOnlyInput with repainting_end := JField.val (-2 : ℚ) } = none ∧
    generate { promptOnlyInput with repainting_end := JField.val (-(1 : ℚ)/2) } ≠ none ∧
    generate { promptOnlyInput with repainting_start := JField.val (-1 : ℚ) } = none := by
  refine ⟨?_, ?_, ?_⟩
  · exact (c6_repainting_bounds
      { promptOnlyInput with repainting_end := JField.val (-2 : ℚ) }).1
      (-2) rfl (Or.inl (by norm_num))
  · exact (c6_repainting_bounds promptOnlyInput).2.1
      (-(1 : ℚ)/2) (by norm_num) (by norm_num)
  · exact (c6_repainting_bounds
      { promptOnlyInput with repainting_start := JField.val (-1 : ℚ) }).2.2
      (-1) rfl (by norm_num)

/-- Claim C7, counterexample: the claim says the enqueued mapping omits
every optional field the caller did not set, and that omitted can be told
apart from explicit default.  But `model_dump(exclude_none=True)` only
omits `None`-valued fields: a request setting only `prompt` produces a
mapping that still contains the unset `seed` with its default `-1`, and is
identical to the mapping of a request that set `seed = -1` explicitly. -/
theorem c7_counterexample :
    promptOnlyInput.seed = JField.missing ∧
    generate promptOnlyInput =
      generate { promptOnlyInput with seed := JField.val (-1) } ∧
    ("seed", DumpValue.int (-1)) ∈ (generate promptOnlyInput).getD [] := by
  refine ⟨rfl, rfl, by decide⟩

/-- Shared helper: a key occurs among the keys contributed by an optional
dump entry iff the entry's value is present and the key matches. -/
theorem exists_mem_optEntry (k k' : String) (v : Option DumpValue) :
    (∃ x, (k', x) ∈ optEntry k v) ↔ v.isSome = true ∧ k' = k := by
  cases v <;> simp [optEntry]

/-- Shared helper: mapping into `DumpValue` preserves presence. -/
theorem isSome_map_dv {α : Type} (f : α → DumpValue) (o : Option α) :
    (o.map f).isSome = o.isSome := by
  cases o <;> rfl

set_option maxHeartbeats 1000000 in
/-- Claim C7 as amended: the parameter mapping handed to the job queue
omits exactly the fields whose validated value is `None` — so unset
optional fields whose declared default is `null` are omitted rather than
null-filled, while fields with a non-null default (such as `seed` or
`duration`) are present even when the caller did not set them. -/
theorem c7_dump_omits_null_fields (m : GenerationRequestModel) :
    ("prompt" ∈ (modelDump m).map Prod.fst) ∧
    ("duration" ∈ (modelDump m).map Prod.fst) ∧
    (("task_type" ∈ (modelDump m).map Prod.fst) ↔ m.task_type.isSome = true) ∧
    (("lyrics" ∈ (modelDump m).map Prod.fst) ↔ m.lyrics.isSome = true) ∧
    (("instrumental" ∈ (modelDump m).map Prod.fst) ↔ m.instrumental.isSome = true) ∧
    (("style" ∈ (modelDump m).map Prod.fst) ↔ m.style.isSome = true) ∧
    (("reference_audio" ∈ (modelDump m).map Prod.fst) ↔ m.reference_audio.isSome = true) ∧
    (("src_audio" ∈ (modelDump m).map Prod.fst) ↔ m.src_audio.isSome = true) ∧
    (("lora_id" ∈ (modelDump m).map Prod.fst) ↔ m.lora_id.isSome = true) ∧
    (("vocal_language" ∈ (modelDump m).map Prod.fst) ↔ m.vocal_language.isSome = true) ∧
    (("bpm" ∈ (modelDump m).map Prod.fst) ↔ m.bpm.isSome = true) ∧
    (("keyscale" ∈ (modelDump m).map Prod.fst) ↔ m.keyscale.isSome = true) ∧
    (("timesignature" ∈ (modelDump m).map Prod.fst) ↔ m.timesignature.isSome = true) ∧
    (("seed" ∈ (modelDump m).map Prod.fst) ↔ m.seed.isSome = true) ∧
    (("num_steps" ∈ (modelDump m).map Prod.fst) ↔ m.num_steps.isSome = true) ∧
    (("cfg_scale" ∈ (modelDump m).map Prod.fst) ↔ m.cfg_scale.isSome = true) ∧
    (("use_adg" ∈ (modelDump m).map Prod.fst) ↔ m.use_adg.isSome = true) ∧
    (("cfg_interval_start" ∈ (modelDump m).map Prod.fst) ↔ m.cfg_interval_start.isSome = true) ∧
    (("cfg_interval_end" ∈ (modelDump m).map Prod.fst) ↔ m.cfg_interval_end.isSome = true) ∧
    (("shift" ∈ (modelDump m).map Prod.fst) ↔ m.shift.isSome = true) ∧
    (("infer_method" ∈ (modelDump m).map Prod.fst) ↔ m.infer_method.isSome = true) ∧
    (("batch_size" ∈ (modelDump m).map Prod.fst) ↔ m.batch_size.isSome = true) ∧
    (("audio_format" ∈ (modelDump m).map Prod.fst) ↔ m.audio_format.isSome = true) ∧
    (("repainting_start" ∈ (modelDump m).map Prod.fst) ↔ m.repainting_start.isSome = true) ∧
    (("repainting_end" ∈ (modelDump m).map Prod.fst) ↔ m.repainting_end.isSome = true) ∧
    (("audio_cover_strength" ∈ (modelDump m).map Prod.fst) ↔ m.audio_cover_strength.isSome = true) ∧
    (("thinking" ∈ (modelDump m).map Prod.fst) ↔ m.thinking.isSome = true) ∧
    (("lm_temperature" ∈ (modelDump m).map Prod.fst) ↔ m.lm_temperature.isSome = true) ∧
    (("lm_top_p" ∈ (modelDump m).map Prod.fst) ↔ m.lm_top_p.isSome = true) ∧
    (("lm_top_k" ∈ (modelDump m).map Prod.fst) ↔ m.lm_top_k.isSome = true) ∧
    (("lm_max_tokens" ∈ (modelDump m).map Prod.fst) ↔ m.lm_max_tokens.isSome = true) := by
  refine ⟨?_, ?_, ?_, ?_, ?_, ?_, ?_, ?_, ?_, ?_, ?_, ?_, ?_, ?_, ?_, ?_,
    ?_, ?_, ?_, ?_, ?_, ?_, ?_, ?_, ?_, ?_, ?_, ?_, ?_, ?_, ?_⟩ <;>
    simp +decide [modelDump, modelDumpA, modelDumpB, modelDumpC, modelDumpD,
      exists_mem_optEntry, isSome_map_dv]

/-- Claim C7 as amended, witness: for the minimal request, the unset
`seed` (default `-1`, non-null) is present in the mapping while the unset
`bpm` (default `null`) is omitted. -/
theorem c7_dump_omits_null_fields_witness :
    ("seed" ∈ (modelDump (buildModel promptOnlyInput)).map Prod.fst) ∧
    ("bpm" ∉ (modelDump (buildModel promptOnlyInput)).map Prod.fst) := by
  have h := c7_dump_omits_null_fields (buildModel promptOnlyInput)
  refine ⟨h.2.2.2.2.2.2.2.2.2.2.2.2.2.1.mpr rfl, fun hmem => ?_⟩
  exact absurd (h.2.2.2.2.2.2.2.2.2.2.1.mp hmem) (by decide)

/-- Claim C8 (code bug): the spec says the output file name is the job id
plus the negotiated audio extension, but `_save_result_audio` hardcodes
`f"{task_id}.wav"`: a job whose negotiated `audio_format` is `flac` still
produces a file named `task1.wav`, not ending in `.flac`. -/
theorem c8_output_name_ignores_negotiated_format :
    negotiatedAudioFormat [("prompt", "x"), ("audio_format", "flac")] = "flac" ∧
    _save_result_audio (fun _ => true) [⟨"/out/tmp123.flac", false⟩] "task1" =
      .ok "task1.wav" ∧
    pyEndsWith "task1.wav" ".flac" = false ∧
    pyEndsWith "task1.wav" ".wav" = true := by
  decide

end AceStepApi
